import Mathlib

set_option linter.unusedVariables false

/-!
Shallow embedding of `Rendering/OpenVR/vtkOpenVRRenderWindow.cxx`:
the per-device render-model state machine (`vtkOpenVRModel`), the
model cache (`FindOrLoadRenderModel`), the per-frame device loop
(`RenderModels`), the head-pose-to-camera update
(`UpdateHMDMatrixPose`), and the `Initialize`/`CreateFrameBuffer`
control flow.  External collaborators (the OpenVR runtime, SDL, GL)
are modelled as oracle inputs: numeric result codes and boolean
success flags consumed exactly where the source consults them.
All floating-point quantities are modelled over ℚ.
-/

namespace VTKOpenVR

/-- `vr::EVRRenderModelError` codes used by the source. -/
def VRRenderModelError_None : Nat := 0

/-- `vr::VRRenderModelError_Loading` (value 100 in openvr.h). -/
def VRRenderModelError_Loading : Nat := 100

/-- `vr::VRRenderModelError_NotEnoughTexCoords` (value 308 in openvr.h). -/
def VRRenderModelError_NotEnoughTexCoords : Nat := 308

/-- A 4x4 matrix of doubles, in the row-major flat layout used by
`vtkMatrix4x4::Multiply4x4` on `double[16]`: entry `a r c` is the flat
element `a[4*r + c]`. -/
abbrev Mat4 := Fin 4 → Fin 4 → ℚ

/-- The 3x4 `vr::HmdMatrix34_t` of a tracked-device pose:
`m j i` is `mDeviceToAbsoluteTracking.m[j][i]`. -/
abbrev Pose34 := Fin 3 → Fin 4 → ℚ

/-- `vtkMatrix4x4::Multiply4x4` on flat row-major `double[16]` arrays. -/
def multiply4x4 (a b : Mat4) : Mat4 := fun r c =>
  a r 0 * b 0 c + a r 1 * b 1 c + a r 2 * b 2 c + a r 3 * b 3 c

/-- The identity 4x4 matrix. -/
def id4 : Mat4 := fun r c => if r = c then 1 else 0

/-- The `elems` array built in `vtkOpenVRModel::Render` lines 271-282:
the loop stores `elems[j + i*4] = pose.m[j][i]` for `j < 3`, `i < 4`,
then fills the remaining entries `elems[3] = elems[7] = elems[11] = 0`
and `elems[15] = 1`.  Read as a row-major matrix `E r c = elems[4r+c]`,
the loop gives `E i j = m j i`, so rows 0..2 hold the transposed
rotation, row 3 holds the pose translation `m j 3`, the last column of
rows 0..2 is zeroed and the corner is 1. -/
def elemsOf (m : Pose34) : Mat4 :=
  ![![m 0 0, m 1 0, m 2 0, 0],
    ![m 0 1, m 1 1, m 2 1, 0],
    ![m 0 2, m 1 2, m 2 2, 0],
    ![m 0 3, m 1 3, m 2 3, 1]]

/-- The device pose extended to a full 4x4 homogeneous matrix: the 3x4
pose rows followed by the homogeneous row (0,0,0,1).  The translation
column `m j 3` is preserved. -/
def fullPose (m : Pose34) : Mat4 :=
  ![![m 0 0, m 0 1, m 0 2, m 0 3],
    ![m 1 0, m 1 1, m 1 2, m 1 3],
    ![m 2 0, m 2 1, m 2 2, m 2 3],
    ![0, 0, 0, 1]]

/-- Matrix transposition on the flat row-major layout. -/
def transpose4 (a : Mat4) : Mat4 := fun r c => a c r

/-- Modelled from the spec: the matrix the claim says is combined with
the camera matrix — "the device pose matrix, with its translation
column zeroed and its homogeneous row forced to (0,0,0,1)".  Rows 0..2
hold the pose rotation rows with the translation entry `m r 3`
replaced by 0, and row 3 is (0,0,0,1). -/
def specZeroedPose (m : Pose34) : Mat4 :=
  ![![m 0 0, m 0 1, m 0 2, 0],
    ![m 1 0, m 1 1, m 1 2, 0],
    ![m 2 0, m 2 1, m 2 2, 0],
    ![0, 0, 0, 1]]

/-- The mutable per-model state of `vtkOpenVRModel`: pointer fields
`RawModel`/`RawTexture` are modelled as booleans recording whether the
pointer is non-null. -/
structure OVRModelState where
  ModelName : String
  Show : Bool
  RawModel : Bool
  RawTexture : Bool
  Loaded : Bool
  FailedToLoad : Bool
deriving DecidableEq

/-- Oracle inputs consumed by one `vtkOpenVRModel::Render` call:
the result codes of the two asynchronous loads, whether the window's
first renderer exists, the device pose, and the camera's
tracking-to-device-clip-space matrix.  A load result of 0
(`VRRenderModelError_None`) makes the corresponding output pointer
non-null; a result of 100 (`Loading`) or an error leaves it null. -/
structure ModelRenderEnv where
  geomRes : Nat
  texRes : Nat
  renPresent : Bool
  pose : Pose34
  tcdc : Mat4

/-- Observable effects of one `vtkOpenVRModel::Render` call. -/
structure RenderEffects where
  GeomPolled : Bool
  TexPolled : Bool
  ErrorLogs : Nat
  Freed : Bool
  Drew : Bool
  Uploaded : Option Mat4
deriving DecidableEq

/-- The effects of a call that touches nothing. -/
def noRenderEffects : RenderEffects :=
  { GeomPolled := false, TexPolled := false, ErrorLogs := 0,
    Freed := false, Drew := false, Uploaded := none }

/-- `vtkOpenVRModel::Render` (lines 200-300).  Phase 1 polls the
geometry load when `RawModel` is null; a result above `Loading` sets
`FailedToLoad` and returns, logging unless the code is
`NotEnoughTexCoords`.  Phase 2 polls the texture load when the
geometry is present and the texture is not; a failing result only
logs, and a successful one builds the GPU resources, frees the raw
blobs and sets `Loaded`.  Phase 3 draws when `Loaded`, uploading
`multiply4x4 (elemsOf pose) tcdc` when a renderer exists. -/
def vrModelRender (s : OVRModelState) (env : ModelRenderEnv) :
    OVRModelState × RenderEffects :=
  if s.FailedToLoad then (s, noRenderEffects)
  else if ¬ s.RawModel ∧ env.geomRes > VRRenderModelError_Loading then
    ({ s with FailedToLoad := true },
     { noRenderEffects with
        GeomPolled := true,
        ErrorLogs := if env.geomRes = VRRenderModelError_NotEnoughTexCoords then 0 else 1 })
  else
    let geomPolled : Bool := ! s.RawModel
    let s1 : OVRModelState :=
      if s.RawModel then s
      else { s with RawModel := decide (env.geomRes = VRRenderModelError_None) }
    let texStep : OVRModelState × Bool × Nat × Bool :=
      if s1.RawModel ∧ ¬ s1.RawTexture then
        let logs : Nat := if env.texRes > VRRenderModelError_Loading then 1 else 0
        let s2 : OVRModelState :=
          { s1 with RawTexture := decide (env.texRes = VRRenderModelError_None) }
        if s2.RawTexture then ({ s2 with Loaded := true }, true, logs, true)
        else (s2, true, logs, false)
      else (s1, false, 0, false)
    let s2 := texStep.1
    let texPolled := texStep.2.1
    let logs := texStep.2.2.1
    let freed := texStep.2.2.2
    if s2.Loaded then
      (s2, { GeomPolled := geomPolled, TexPolled := texPolled, ErrorLogs := logs,
             Freed := freed, Drew := true,
             Uploaded := if env.renPresent
               then some (multiply4x4 (elemsOf env.pose) env.tcdc) else none })
    else
      (s2, { GeomPolled := geomPolled, TexPolled := texPolled, ErrorLogs := logs,
             Freed := freed, Drew := false, Uploaded := none })

/-- ASCII lower-casing of one character, as `stricmp` compares. -/
def lowerChar (c : Char) : Char :=
  if 65 ≤ c.toNat ∧ c.toNat ≤ 90 then Char.ofNat (c.toNat + 32) else c

/-- ASCII lower-casing of a string. -/
def lowerStr (s : String) : String := String.mk (s.data.map lowerChar)

/-- `stricmp` (ASCII case-insensitive string comparison) as a boolean
equality test. -/
def nameEq (a b : String) : Bool := lowerStr a == lowerStr b

/-- The fresh model built by `vtkOpenVRModel::New()` followed by
`SetName`: the constructor nulls `RawModel`/`RawTexture` and clears
`Loaded`/`FailedToLoad`; `Show` is not initialized there and is set by
the caller. -/
def newModel (name : String) : OVRModelState :=
  { ModelName := name, Show := false, RawModel := false,
    RawTexture := false, Loaded := false, FailedToLoad := false }

/-- The linear scan of `VTKRenderModels` in `FindOrLoadRenderModel`
lines 454-462: index of the first model whose name matches
case-insensitively. -/
def findModelIdx (models : List OVRModelState) (name : String) : Option Nat :=
  match models with
  | [] => none
  | m :: rest =>
    if nameEq m.ModelName name then some 0
    else (findModelIdx rest name).map (· + 1)

/-- `vtkOpenVRRenderWindow::FindOrLoadRenderModel` (lines 450-482).
`loadRes` is the oracle result of `LoadRenderModel_Async`.  Returns
the found-or-created model index (`none` models the NULL return), the
updated cache, whether a load request was issued, and whether an error
was logged.  On a cache hit nothing is issued; on a miss a model is
created and the load issued: a result above `Loading` logs, deletes
the model and returns NULL leaving the cache unchanged, otherwise the
model (with `Show` set and `RawModel` non-null iff the result was 0)
is appended to the cache. -/
def findOrLoadRenderModel (models : List OVRModelState) (name : String)
    (loadRes : Nat) : Option Nat × List OVRModelState × Bool × Bool :=
  match findModelIdx models name with
  | some i => (some i, models, false, false)
  | none =>
    if loadRes > VRRenderModelError_Loading then
      (none, models, true, true)
    else
      (some models.length,
       models ++ [{ newModel name with
                    RawModel := decide (loadRes = VRRenderModelError_None),
                    Show := true }],
       true, false)

/-- 3-vectors of doubles. -/
structure V3 where
  x : ℚ
  y : ℚ
  z : ℚ
deriving DecidableEq

/-- `vtkMath::Cross`. -/
def cross (a b : V3) : V3 :=
  ⟨a.y * b.z - a.z * b.y, a.z * b.x - a.x * b.z, a.x * b.y - a.y * b.x⟩

/-- The slice of `vtkOpenVRCamera` state read and written by
`UpdateHMDMatrixPose`. -/
structure Camera where
  position : V3
  focalPoint : V3
  viewUp : V3
  distance : ℚ
  translation : V3
deriving DecidableEq

/-- A `vr::TrackedDevicePose_t`: validity flag plus the 3x4
device-to-absolute-tracking matrix. -/
structure TrackedPose where
  bPoseIsValid : Bool
  m : Pose34

/-- The camera update performed per renderer inside
`UpdateHMDMatrixPose` (lines 629-689): build `vright = dop × vup` from
the window's initial view axes, extract the HMD right/up columns and
translation from the pose, map them into world space through the
(vright, vup, -dop) basis, scale the mapped translation by the
camera's distance and subtract the camera's translation offset, derive
the forward axis as `fvup × fvright`, and set position, focal point
and view-up. -/
def updateCameraFromPose (vup dop : V3) (m : Pose34) (cam : Camera) : Camera :=
  let vright := cross dop vup
  let hvright : V3 := ⟨m 0 0, m 1 0, m 2 0⟩
  let hvup : V3 := ⟨m 0 1, m 1 1, m 2 1⟩
  let pos : V3 := ⟨m 0 3, m 1 3, m 2 3⟩
  let npos : V3 :=
    ⟨pos.x * vright.x + pos.y * vup.x - pos.z * dop.x,
     pos.x * vright.y + pos.y * vup.y - pos.z * dop.y,
     pos.x * vright.z + pos.y * vup.z - pos.z * dop.z⟩
  let newPos : V3 :=
    ⟨npos.x * cam.distance - cam.translation.x,
     npos.y * cam.distance - cam.translation.y,
     npos.z * cam.distance - cam.translation.z⟩
  let fvright : V3 :=
    ⟨hvright.x * vright.x + hvright.y * vup.x - hvright.z * dop.x,
     hvright.x * vright.y + hvright.y * vup.y - hvright.z * dop.y,
     hvright.x * vright.z + hvright.y * vup.z - hvright.z * dop.z⟩
  let fvup : V3 :=
    ⟨hvup.x * vright.x + hvup.y * vup.x - hvup.z * dop.x,
     hvup.x * vright.y + hvup.y * vup.y - hvup.z * dop.y,
     hvup.x * vright.z + hvup.y * vup.z - hvup.z * dop.z⟩
  let fdop := cross fvup fvright
  { cam with
    position := newPos,
    focalPoint :=
      ⟨newPos.x + fdop.x * cam.distance,
       newPos.y + fdop.y * cam.distance,
       newPos.z + fdop.z * cam.distance⟩,
    viewUp := fvup }

/-- `vr::k_unTrackedDeviceIndex_Hmd`. -/
def trackedDeviceIndexHmd : Nat := 0

/-- `vr::k_unMaxTrackedDeviceCount`. -/
def maxTrackedDeviceCount : Nat := 16

/-- The window state touched by `UpdateHMDMatrixPose`: the HMD session
pointer (as a presence flag), the configured initial view axes, the
per-device pose array, and the active camera of every renderer. -/
structure HMDPoseState where
  HMD : Bool
  InitialViewUp : V3
  InitialViewDirection : V3
  TrackedDevicePose : Nat → TrackedPose
  cameras : List Camera

/-- `vtkOpenVRRenderWindow::UpdateHMDMatrixPose` (lines 612-692).
With no HMD it returns immediately.  Otherwise `WaitGetPoses`
overwrites the pose array with `newPoses`; if the head pose is valid
every renderer's camera is updated from it, else the cameras are left
alone. -/
def updateHMDMatrixPose (w : HMDPoseState) (newPoses : Nat → TrackedPose) :
    HMDPoseState :=
  if ¬ w.HMD then w
  else
    let w1 := { w with TrackedDevicePose := newPoses }
    if (newPoses trackedDeviceIndexHmd).bPoseIsValid then
      { w1 with cameras := (w1.cameras.map
          (updateCameraFromPose w.InitialViewUp w.InitialViewDirection
            (newPoses trackedDeviceIndexHmd).m)) }
    else w1

/-- `GL_FRAMEBUFFER_COMPLETE`. -/
def GL_FRAMEBUFFER_COMPLETE : Nat := 36053

/-- `vtkOpenVRRenderWindow::CreateFrameBuffer` (lines 778-828): after
building the attachments it checks `glCheckFramebufferStatus`
(modelled as the oracle `status`) and returns false unless the status
is complete.  The requested size does not influence the result in the
source; it is kept as an argument because every GL storage call
receives it. -/
def createFrameBuffer (nWidth nHeight : Nat) (status : Nat) : Bool :=
  status == GL_FRAMEBUFFER_COMPLETE

/-- Oracle inputs for one `Initialize` run: the success of each
external step and the runtime-recommended render-target size. -/
structure InitEnv where
  sdlInitOk : Bool
  vrInitError : Nat
  renderModelsOk : Bool
  recommendedWidth : Nat
  recommendedHeight : Nat
  windowOk : Bool
  contextOk : Bool
  swapIntervalOk : Bool
  leftStatus : Nat
  rightStatus : Nat
  compositorOk : Bool

/-- The window state touched by `Initialize`. -/
structure InitWindowState where
  HMD : Bool
  RenderWidth : Nat
  RenderHeight : Nat
  SizeX : Nat
  SizeY : Nat
  WindowCreated : Bool
  ContextCreated : Bool
deriving DecidableEq

/-- The externally observable steps of one `Initialize` run: the
framebuffer creations performed (size and result, in order), whether
the compositor check was reached, and whether the dashboard overlay
was created. -/
structure InitTrace where
  fbCreations : List (Nat × Nat × Bool)
  compositorChecked : Bool
  overlayCreated : Bool
deriving DecidableEq

/-- The trace of a run that aborted before creating framebuffers. -/
def abortedTrace : InitTrace :=
  { fbCreations := [], compositorChecked := false, overlayCreated := false }

/-- `vtkOpenVRRenderWindow::Initialize` (lines 832-932).  Each failing
step up to the swap-interval call returns early.  On VR-init or
render-models-interface failure `HMD` is nulled.  After a successful
VR init the recommended size is stored and the window size is set to
half of it.  The two `CreateFrameBuffer` calls use the stored render
size; their boolean results are discarded and execution continues to
the compositor check, and when the compositor is available the
overlay is created. -/
def renderWindowInit (s : InitWindowState) (env : InitEnv) :
    InitWindowState × InitTrace :=
  if ¬ env.sdlInitOk then (s, abortedTrace)
  else if env.vrInitError ≠ 0 then ({ s with HMD := false }, abortedTrace)
  else if ¬ env.renderModelsOk then ({ s with HMD := false }, abortedTrace)
  else
    let s1 : InitWindowState :=
      { s with HMD := true,
               RenderWidth := env.recommendedWidth,
               RenderHeight := env.recommendedHeight,
               SizeX := env.recommendedWidth / 2,
               SizeY := env.recommendedHeight / 2 }
    if ¬ env.windowOk then (s1, abortedTrace)
    else
      let s2 := { s1 with WindowCreated := true }
      if ¬ env.contextOk then (s2, abortedTrace)
      else
        let s3 := { s2 with ContextCreated := true }
        if ¬ env.swapIntervalOk then (s3, abortedTrace)
        else
          let fbL := createFrameBuffer s3.RenderWidth s3.RenderHeight env.leftStatus
          let fbR := createFrameBuffer s3.RenderWidth s3.RenderHeight env.rightStatus
          let fbs := [(s3.RenderWidth, s3.RenderHeight, fbL),
                      (s3.RenderWidth, s3.RenderHeight, fbR)]
          if ¬ env.compositorOk then
            (s3, { fbCreations := fbs, compositorChecked := true, overlayCreated := false })
          else
            (s3, { fbCreations := fbs, compositorChecked := true, overlayCreated := true })

/-- `vr::TrackedDeviceClass_Controller`. -/
def trackedDeviceClassController : Nat := 2

/-- Oracle inputs for one `RenderModels` run: per-device connectivity,
device class, render-model-name property, input-focus capture, the
per-name result of the cache's `LoadRenderModel_Async`, the per-name
results consumed by `vtkOpenVRModel::Render`, and the camera data it
reads. -/
structure RMEnv where
  connected : Nat → Bool
  deviceClass : Nat → Nat
  renderModelName : Nat → String
  inputCaptured : Bool
  loadRes : String → Nat
  geomRes : String → Nat
  texRes : String → Nat
  renPresent : Bool
  tcdc : Mat4

/-- The window state read and written by `RenderModels`: the model
cache `VTKRenderModels` and the `TrackedDeviceToRenderModel` array
(modelled as a map from device index to cache index). -/
structure RMState where
  models : List OVRModelState
  deviceToModel : Nat → Option Nat

/-- `Show` of the cache model at index `i` (false when out of range,
matching the guard that skips null entries). -/
def modelShowAt (models : List OVRModelState) (i : Nat) : Bool :=
  match models[i]? with
  | some m => m.Show
  | none => false

/-- Name of the cache model at index `i`. -/
def modelNameAt (models : List OVRModelState) (i : Nat) : String :=
  match models[i]? with
  | some m => m.ModelName
  | none => ""

/-- Replace the cache model at index `i` by `f` of it. -/
def updateModelAt : List OVRModelState → Nat → (OVRModelState → OVRModelState) →
    List OVRModelState
  | [], _, _ => []
  | m :: rest, 0, f => f m :: rest
  | m :: rest, n + 1, f => m :: updateModelAt rest n f

/-- One iteration of the `RenderModels` device loop (lines 490-529)
for device `d`: skip when not connected; when the device has no
assigned model, look one up (possibly issuing a load) and assign it on
success; skip when there is still no model or its `Show` flag is off;
skip when the device pose is invalid; skip controller-class devices
while input focus is captured by another process; otherwise invoke the
model's `Render` with the device pose.  Returns the updated state and
the rendered (device, model index) pair if a render was invoked. -/
def renderModelsStep (env : RMEnv) (poses : Nat → TrackedPose) (d : Nat)
    (st : RMState) : RMState × Option (Nat × Nat) :=
  if ¬ env.connected d then (st, none)
  else
    let st1 : RMState :=
      match st.deviceToModel d with
      | some _ => st
      | none =>
        let name := env.renderModelName d
        let flr := findOrLoadRenderModel st.models name (env.loadRes name)
        match flr.1 with
        | some i =>
          { models := flr.2.1,
            deviceToModel := fun d2 => if d2 = d then some i else st.deviceToModel d2 }
        | none => { st with models := flr.2.1 }
    match st1.deviceToModel d with
    | none => (st1, none)
    | some i =>
      if ¬ modelShowAt st1.models i then (st1, none)
      else if ¬ (poses d).bPoseIsValid then (st1, none)
      else if env.inputCaptured ∧ env.deviceClass d = trackedDeviceClassController then
        (st1, none)
      else
        let renv : ModelRenderEnv :=
          { geomRes := env.geomRes (modelNameAt st1.models i),
            texRes := env.texRes (modelNameAt st1.models i),
            renPresent := env.renPresent,
            pose := (poses d).m, tcdc := env.tcdc }
        ({ st1 with models := (updateModelAt st1.models i
             (fun ms => (vrModelRender ms renv).1)) },
         some (d, i))

/-- The `RenderModels` loop over a list of device indices. -/
def renderModelsAux (env : RMEnv) (poses : Nat → TrackedPose) :
    List Nat → RMState → RMState × List (Nat × Nat)
  | [], st => (st, [])
  | d :: rest, st =>
    let out := renderModelsStep env poses d st
    let outRest := renderModelsAux env poses rest out.1
    (outRest.1, out.2.toList ++ outRest.2)

/-- `vtkOpenVRRenderWindow::RenderModels` (lines 484-530): the loop
runs over device indices `k_unTrackedDeviceIndex_Hmd + 1` up to
`k_unMaxTrackedDeviceCount - 1`. -/
def vtkRenderModels (env : RMEnv) (poses : Nat → TrackedPose) (st : RMState) :
    RMState × List (Nat × Nat) :=
  renderModelsAux env poses
    (List.range' (trackedDeviceIndexHmd + 1) (maxTrackedDeviceCount - 1)) st

/-! Concrete inputs used by witnesses and counterexamples. -/

/-- A pose with identity rotation and translation (1,0,0). -/
def poseTrans : Pose34 :=
  ![![1, 0, 0, 1], ![0, 1, 0, 0], ![0, 0, 1, 0]]

/-- A model in the Ready state. -/
def readyModel : OVRModelState :=
  { ModelName := "renderLeftDevice", Show := true, RawModel := true,
    RawTexture := true, Loaded := true, FailedToLoad := false }

/-- A render environment whose pose carries a translation and whose
camera matrix is the identity. -/
def transEnv : ModelRenderEnv :=
  { geomRes := 0, texRes := 0, renPresent := true,
    pose := poseTrans, tcdc := id4 }

/-! Shared lemmas. -/

/-- Rendering a Ready model uploads `multiply4x4 (elemsOf pose) tcdc`
when a renderer exists. -/
theorem vrModelRender_ready_uploaded (s : OVRModelState) (env : ModelRenderEnv)
    (h1 : s.RawModel = true) (h2 : s.RawTexture = true) (h3 : s.Loaded = true)
    (h4 : s.FailedToLoad = false) :
    (vrModelRender s env).2.Uploaded =
      if env.renPresent then some (multiply4x4 (elemsOf env.pose) env.tcdc)
      else none := by
  unfold vrModelRender
  simp [h1, h2, h3, h4]

/-- The `elems` matrix is the transpose of the full homogeneous pose
matrix. -/
theorem elemsOf_eq_transpose_fullPose (m : Pose34) :
    elemsOf m = transpose4 (fullPose m) := by
  funext r c
  fin_cases r <;> fin_cases c <;> simp [elemsOf, transpose4, fullPose]

/-- C1.  The claim says the uploaded transform is
`(pose with translation column zeroed, homogeneous row (0,0,0,1)) × tcdc`.
On a Ready model whose pose has identity rotation and translation
(1,0,0), with `tcdc` the identity, the code uploads a matrix that
differs from the claimed product: the pose translation is not zeroed —
it survives (in row 3 of the flat row-major array) and reaches the
shader. -/
theorem C1_counterexample :
    readyModel.Loaded = true ∧ readyModel.FailedToLoad = false ∧
    transEnv.renPresent = true ∧
    (vrModelRender readyModel transEnv).2.Uploaded ≠
      some (multiply4x4 (specZeroedPose transEnv.pose) transEnv.tcdc) := by
  refine ⟨rfl, rfl, rfl, ?_⟩
  intro h
  rw [vrModelRender_ready_uploaded readyModel transEnv rfl rfl rfl rfl] at h
  have h2 : multiply4x4 (elemsOf poseTrans) id4 =
      multiply4x4 (specZeroedPose poseTrans) id4 := by
    simpa [transEnv] using h
  have h30 := congrFun (congrFun h2 3) 0
  simp [multiply4x4, elemsOf, specZeroedPose, id4, poseTrans] at h30

/-- C1 (amended).  For every render call on a model in the Ready state
with a renderer present, the transform uploaded to the shader equals
the product of the TRANSPOSE of the device pose matrix — extended with
the homogeneous row (0,0,0,1), its translation preserved — and the
tracking-space-to-device-clip-space matrix obtained from the active
camera. -/
theorem C1_theorem (s : OVRModelState) (env : ModelRenderEnv)
    (h1 : s.RawModel = true) (h2 : s.RawTexture = true) (h3 : s.Loaded = true)
    (h4 : s.FailedToLoad = false) (h5 : env.renPresent = true) :
    (vrModelRender s env).2.Uploaded =
      some (multiply4x4 (transpose4 (fullPose env.pose)) env.tcdc) := by
  rw [vrModelRender_ready_uploaded s env h1 h2 h3 h4, if_pos (by simp [h5]),
    elemsOf_eq_transpose_fullPose]

/-- Witness for C1: the amended claim evaluated on the Ready model and
the translated pose. -/
theorem C1_witness :
    (vrModelRender readyModel transEnv).2.Uploaded =
      some (multiply4x4 (transpose4 (fullPose transEnv.pose)) transEnv.tcdc) :=
  C1_theorem readyModel transEnv rfl rfl rfl rfl rfl

/-- Case-insensitive equality only depends on the lowered strings. -/
theorem nameEq_congr {n n2 : String} (h : lowerStr n = lowerStr n2)
    (a : String) : nameEq a n = nameEq a n2 := by
  simp [nameEq, h]

/-- The cache scan only depends on the lowered search name. -/
theorem findModelIdx_congr {n n2 : String} (h : lowerStr n = lowerStr n2) :
    ∀ l : List OVRModelState, findModelIdx l n = findModelIdx l n2 := by
  intro l
  induction l with
  | nil => rfl
  | cons m rest ih => simp [findModelIdx, nameEq_congr h, ih]

/-- Scanning past a miss-only prefix shifts the index by its length. -/
theorem findModelIdx_append_of_none {n : String} :
    ∀ {l1 : List OVRModelState} (l2 : List OVRModelState),
      findModelIdx l1 n = none →
      findModelIdx (l1 ++ l2) n = (findModelIdx l2 n).map (· + l1.length) := by
  intro l1
  induction l1 with
  | nil =>
    intro l2 _
    cases h2 : findModelIdx l2 n <;> simp [findModelIdx, h2]
  | cons m rest ih =>
    intro l2 h
    rw [findModelIdx] at h
    by_cases hm : nameEq m.ModelName n
    · simp [hm] at h
    · have hrest : findModelIdx rest n = none := by
        simp only [hm, Bool.false_eq_true, ite_false] at h
        cases hr : findModelIdx rest n
        · rfl
        · rw [hr] at h
          simp at h
      have hstep : findModelIdx ((m :: rest) ++ l2) n
          = (findModelIdx (rest ++ l2) n).map (· + 1) := by
        rw [List.cons_append, findModelIdx]
        simp [hm]
      rw [hstep, ih l2 hrest]
      cases h2 : findModelIdx l2 n
      · simp
      · simp [List.length_cons]
        omega

/-- C2.  If the name is not yet cached and the asynchronous load
starts successfully (result at most `Loading`), the first call creates
and returns the model at the end of the cache and issues the load;
a second call with a case-insensitively equal name returns the same
model index, leaves the cache unchanged, and issues no load. -/
theorem C2_theorem (models : List OVRModelState) (n n2 : String) (r1 r2 : Nat)
    (hmiss : findModelIdx models n = none)
    (hok : r1 ≤ VRRenderModelError_Loading)
    (hcase : lowerStr n = lowerStr n2) :
    (findOrLoadRenderModel models n r1).1 = some models.length ∧
    (findOrLoadRenderModel models n r1).2.2.1 = true ∧
    (findOrLoadRenderModel (findOrLoadRenderModel models n r1).2.1 n2 r2).1 =
      some models.length ∧
    (findOrLoadRenderModel (findOrLoadRenderModel models n r1).2.1 n2 r2).2.1 =
      (findOrLoadRenderModel models n r1).2.1 ∧
    (findOrLoadRenderModel (findOrLoadRenderModel models n r1).2.1 n2 r2).2.2.1 =
      false := by
  have hnotgt : ¬ r1 > VRRenderModelError_Loading := by omega
  have hfirst : findOrLoadRenderModel models n r1 =
      (some models.length,
       models ++ [{ newModel n with
                    RawModel := decide (r1 = VRRenderModelError_None),
                    Show := true }],
       true, false) := by
    unfold findOrLoadRenderModel
    rw [hmiss]
    simp [hnotgt]
  rw [hfirst]
  refine ⟨rfl, rfl, ?_⟩
  have hfound : findModelIdx
      (models ++ [{ newModel n with
                    RawModel := decide (r1 = VRRenderModelError_None),
                    Show := true }]) n2 = some models.length := by
    rw [← findModelIdx_congr hcase]
    rw [findModelIdx_append_of_none _ hmiss]
    simp [findModelIdx, newModel, nameEq]
  unfold findOrLoadRenderModel
  rw [hfound]
  exact ⟨rfl, rfl, rfl⟩

/-- Witness for C2: an empty cache, the name looked up first as
written and then in upper case, with a load result of 0. -/
theorem C2_witness :
    (findOrLoadRenderModel [] "vr_controller" 0).1 = some 0 ∧
    (findOrLoadRenderModel [] "vr_controller" 0).2.2.1 = true ∧
    (findOrLoadRenderModel (findOrLoadRenderModel [] "vr_controller" 0).2.1
      "VR_CONTROLLER" 7).1 = some 0 ∧
    (findOrLoadRenderModel (findOrLoadRenderModel [] "vr_controller" 0).2.1
      "VR_CONTROLLER" 7).2.1 = (findOrLoadRenderModel [] "vr_controller" 0).2.1 ∧
    (findOrLoadRenderModel (findOrLoadRenderModel [] "vr_controller" 0).2.1
      "VR_CONTROLLER" 7).2.2.1 = false := by
  have h := C2_theorem [] "vr_controller" "VR_CONTROLLER" 0 7 rfl
    (by norm_num [VRRenderModelError_Loading]) (by decide)
  simpa using h

/-- C8.  If the name is not cached and starting the asynchronous load
fails (result above `Loading`), `FindOrLoadRenderModel` logs an error,
issues exactly that one failed load, returns NULL, and leaves the
cache exactly as before: the created model is destroyed and never
registered. -/
theorem C8_theorem (models : List OVRModelState) (n : String) (r : Nat)
    (hmiss : findModelIdx models n = none)
    (hfail : r > VRRenderModelError_Loading) :
    findOrLoadRenderModel models n r = (none, models, true, true) := by
  unfold findOrLoadRenderModel
  rw [hmiss]
  simp [hfail]

/-- Witness for C8: an empty cache and a failing load-start code. -/
theorem C8_witness :
    findOrLoadRenderModel [] "vr_tracker" 301 = (none, [], true, true) :=
  C8_theorem [] "vr_tracker" 301 rfl
    (by norm_num [VRRenderModelError_Loading])

/-- Membership in `vr::EVRRenderModelError` (openvr.h values). -/
def isVRRenderModelErrorCode (r : Nat) : Bool :=
  r = 0 || r = 100 || r = 200 || r = 300 || r = 301 || r = 302 || r = 303 ||
  r = 304 || r = 305 || r = 306 || r = 307 || r = 308 || r = 400

/-- A model in the texture-loading phase: geometry arrived, texture
not yet. -/
def texPhaseModel : OVRModelState :=
  { ModelName := "renderRightDevice", Show := true, RawModel := true,
    RawTexture := false, Loaded := false, FailedToLoad := false }

/-- A render environment whose texture load fails with
`VRRenderModelError_InvalidModel` (301). -/
def texFailEnv : ModelRenderEnv :=
  { geomRes := 0, texRes := 301, renPresent := false,
    pose := poseTrans, tcdc := id4 }

/-- A model that has already failed to load. -/
def failedModel : OVRModelState :=
  { ModelName := "renderBroken", Show := true, RawModel := false,
    RawTexture := false, Loaded := false, FailedToLoad := true }

/-- C3.  The claim says a failing texture-load result transitions the
model into the Failed state.  It does not: on a model in the
texture-loading phase, a texture result of 301 (a non-success,
non-loading code) is polled and logged, but `FailedToLoad` stays
false. -/
theorem C3_counterexample :
    texPhaseModel.RawModel = true ∧ texPhaseModel.RawTexture = false ∧
    texPhaseModel.FailedToLoad = false ∧
    texFailEnv.texRes > VRRenderModelError_Loading ∧
    isVRRenderModelErrorCode texFailEnv.texRes = true ∧
    (vrModelRender texPhaseModel texFailEnv).2.TexPolled = true ∧
    (vrModelRender texPhaseModel texFailEnv).2.ErrorLogs = 1 ∧
    (vrModelRender texPhaseModel texFailEnv).1.FailedToLoad = false := by
  refine ⟨rfl, rfl, rfl, ?_, rfl, ?_, ?_, ?_⟩
  · norm_num [texFailEnv, VRRenderModelError_Loading]
  all_goals rfl

/-- C3 (amended).  Failed is absorbing: once a model is Failed, every
subsequent render call leaves the state untouched and performs no load
poll, no log and no draw.  A failing (non-success, non-loading)
texture-load result, however, does not reach Failed: it logs one error
and leaves the model state unchanged, to be retried on the next render
call. -/
theorem C3_theorem (s : OVRModelState) (env : ModelRenderEnv) :
    (s.FailedToLoad = true → vrModelRender s env = (s, noRenderEffects)) ∧
    (s.FailedToLoad = false → s.RawModel = true → s.RawTexture = false →
      s.Loaded = false → env.texRes > VRRenderModelError_Loading →
      (vrModelRender s env).1 = s ∧
      (vrModelRender s env).2.ErrorLogs = 1 ∧
      (vrModelRender s env).2.TexPolled = true ∧
      (vrModelRender s env).2.Drew = false) := by
  constructor
  · intro h
    unfold vrModelRender
    simp [h]
  · intro h1 h2 h3 h4 htex
    obtain ⟨nm, sh, rm, rt, ld, fl⟩ := s
    simp only at h1 h2 h3 h4
    subst h1 h2 h3 h4
    have hne : env.texRes ≠ VRRenderModelError_None := by
      simp only [VRRenderModelError_None]
      simp only [VRRenderModelError_Loading] at htex
      omega
    unfold vrModelRender
    simp [htex, hne]

/-- Witness for C3: the absorbing branch on a Failed model, and the
texture-failure branch on the texture-phase model. -/
theorem C3_witness :
    vrModelRender failedModel texFailEnv = (failedModel, noRenderEffects) ∧
    ((vrModelRender texPhaseModel texFailEnv).1 = texPhaseModel ∧
     (vrModelRender texPhaseModel texFailEnv).2.ErrorLogs = 1 ∧
     (vrModelRender texPhaseModel texFailEnv).2.TexPolled = true ∧
     (vrModelRender texPhaseModel texFailEnv).2.Drew = false) :=
  ⟨(C3_theorem failedModel texFailEnv).1 rfl,
   (C3_theorem texPhaseModel texFailEnv).2 rfl rfl rfl rfl
     (by norm_num [texFailEnv, VRRenderModelError_Loading])⟩

/-- C6.  During the geometry-loading phase (no raw model yet, not
Failed), a valid result code that is neither success nor `Loading`
sets `FailedToLoad` and logs one error, except `NotEnoughTexCoords`
which sets `FailedToLoad` silently; a `Loading` result changes no
state and logs nothing. -/
theorem C6_theorem (s : OVRModelState) (env : ModelRenderEnv)
    (h1 : s.FailedToLoad = false) (h2 : s.RawModel = false)
    (hv : isVRRenderModelErrorCode env.geomRes = true) :
    ((env.geomRes ≠ VRRenderModelError_None ∧
      env.geomRes ≠ VRRenderModelError_Loading ∧
      env.geomRes ≠ VRRenderModelError_NotEnoughTexCoords) →
      (vrModelRender s env).1 = { s with FailedToLoad := true } ∧
      (vrModelRender s env).2.ErrorLogs = 1) ∧
    (env.geomRes = VRRenderModelError_NotEnoughTexCoords →
      (vrModelRender s env).1 = { s with FailedToLoad := true } ∧
      (vrModelRender s env).2.ErrorLogs = 0) ∧
    (env.geomRes = VRRenderModelError_Loading →
      (vrModelRender s env).1 = s ∧
      (vrModelRender s env).2.ErrorLogs = 0) := by
  obtain ⟨nm, sh, rm, rt, ld, fl⟩ := s
  simp only at h1 h2
  subst h1 h2
  refine ⟨?_, ?_, ?_⟩
  · rintro ⟨hz, hl, hb⟩
    simp only [VRRenderModelError_None] at hz
    simp only [VRRenderModelError_Loading] at hl
    simp only [VRRenderModelError_NotEnoughTexCoords] at hb
    have hgt : VRRenderModelError_Loading < env.geomRes := by
      simp only [isVRRenderModelErrorCode, Bool.or_eq_true, decide_eq_true_eq] at hv
      simp only [VRRenderModelError_Loading]
      rcases hv with
        (((((((((((h | h) | h) | h) | h) | h) | h) | h) | h) | h) | h) | h) | h <;>
        omega
    unfold vrModelRender
    simp [hgt, hb, VRRenderModelError_NotEnoughTexCoords]
  · intro hb
    simp only [VRRenderModelError_NotEnoughTexCoords] at hb
    unfold vrModelRender
    simp [hb, VRRenderModelError_Loading, VRRenderModelError_NotEnoughTexCoords]
  · intro hl
    simp only [VRRenderModelError_Loading] at hl
    unfold vrModelRender
    cases ld <;>
      simp [hl, VRRenderModelError_Loading, VRRenderModelError_None]

/-- A model that has not started loading yet. -/
def freshModel : OVRModelState :=
  { ModelName := "renderFresh", Show := true, RawModel := false,
    RawTexture := false, Loaded := false, FailedToLoad := false }

/-- A geometry load failing with `VRRenderModelError_NotSupported`. -/
def geomFailEnv : ModelRenderEnv :=
  { geomRes := 200, texRes := 0, renPresent := false,
    pose := poseTrans, tcdc := id4 }

/-- A geometry load failing with the benign
`VRRenderModelError_NotEnoughTexCoords`. -/
def geomBenignEnv : ModelRenderEnv :=
  { geomRes := 308, texRes := 0, renPresent := false,
    pose := poseTrans, tcdc := id4 }

/-- A geometry load still in flight. -/
def geomLoadingEnv : ModelRenderEnv :=
  { geomRes := 100, texRes := 0, renPresent := false,
    pose := poseTrans, tcdc := id4 }

/-- Witness for C6: the three branches evaluated on a fresh model. -/
theorem C6_witness :
    ((vrModelRender freshModel geomFailEnv).1 =
        { freshModel with FailedToLoad := true } ∧
     (vrModelRender freshModel geomFailEnv).2.ErrorLogs = 1) ∧
    ((vrModelRender freshModel geomBenignEnv).1 =
        { freshModel with FailedToLoad := true } ∧
     (vrModelRender freshModel geomBenignEnv).2.ErrorLogs = 0) ∧
    ((vrModelRender freshModel geomLoadingEnv).1 = freshModel ∧
     (vrModelRender freshModel geomLoadingEnv).2.ErrorLogs = 0) :=
  ⟨(C6_theorem freshModel geomFailEnv rfl rfl rfl).1
      ⟨by norm_num [geomFailEnv, VRRenderModelError_None],
       by norm_num [geomFailEnv, VRRenderModelError_Loading],
       by norm_num [geomFailEnv, VRRenderModelError_NotEnoughTexCoords]⟩,
   (C6_theorem freshModel geomBenignEnv rfl rfl rfl).2.1 rfl,
   (C6_theorem freshModel geomLoadingEnv rfl rfl rfl).2.2 rfl⟩

/-- The default initial view-up (0,1,0) set in the constructor. -/
def initialVup : V3 := ⟨0, 1, 0⟩

/-- The default initial view-direction (0,0,-1) set in the
constructor. -/
def initialDop : V3 := ⟨0, 0, -1⟩

/-- The head pose with identity rotation and zero translation. -/
def idPose34 : Pose34 :=
  ![![1, 0, 0, 0], ![0, 1, 0, 0], ![0, 0, 1, 0]]

/-- A camera with distance 2 and translation (1,0,0). -/
def camCex : Camera :=
  { position := ⟨0, 0, 0⟩, focalPoint := ⟨0, 0, 0⟩, viewUp := ⟨0, 1, 0⟩,
    distance := 2, translation := ⟨1, 0, 0⟩ }

/-- C5 (amended).  For a head pose with identity rotation and zero
translation, initial view-up (0,1,0) and view-direction (0,0,-1), the
pose update sets the camera position to the NEGATIVE OF THE CAMERA'S
TRANSLATION OFFSET — the distance factor multiplies only the head
translation, which is zero here — and sets the view-up to (0,1,0). -/
theorem C5_theorem (cam : Camera) :
    (updateCameraFromPose initialVup initialDop idPose34 cam).position =
      ⟨-cam.translation.x, -cam.translation.y, -cam.translation.z⟩ ∧
    (updateCameraFromPose initialVup initialDop idPose34 cam).viewUp =
      ⟨0, 1, 0⟩ := by
  constructor <;>
    simp [updateCameraFromPose, cross, initialVup, initialDop, idPose34,
      Matrix.vecHead, Matrix.vecTail]

/-- C5.  The claim says the derived position is the negative of the
camera's translation offset SCALED BY DISTANCE.  With distance 2 and
translation (1,0,0), the code's position is (-1,0,0), not the claimed
(-2,0,0). -/
theorem C5_counterexample :
    camCex.distance = 2 ∧ camCex.translation = ⟨1, 0, 0⟩ ∧
    (updateCameraFromPose initialVup initialDop idPose34 camCex).position ≠
      ⟨-(camCex.translation.x * camCex.distance),
       -(camCex.translation.y * camCex.distance),
       -(camCex.translation.z * camCex.distance)⟩ ∧
    (updateCameraFromPose initialVup initialDop idPose34 camCex).position =
      ⟨-1, 0, 0⟩ := by
  refine ⟨rfl, rfl, ?_, ?_⟩ <;>
    simp [updateCameraFromPose, cross, initialVup, initialDop, idPose34,
      camCex, Matrix.vecHead, Matrix.vecTail]

/-- A head pose array in which every device pose is valid and zero. -/
def validPoses : Nat → TrackedPose :=
  fun _ => { bPoseIsValid := true, m := fun _ _ => 0 }

/-- A head pose array in which every device pose is invalid. -/
def invalidPoses : Nat → TrackedPose :=
  fun _ => { bPoseIsValid := false, m := fun _ _ => 0 }

/-- A window with a VR session, default view axes, one camera, and
previously stored valid poses. -/
def poseWindow : HMDPoseState :=
  { HMD := true, InitialViewUp := initialVup,
    InitialViewDirection := initialDop,
    TrackedDevicePose := validPoses, cameras := [camCex] }

/-- The same window without a VR session. -/
def poseWindowNoHMD : HMDPoseState :=
  { poseWindow with HMD := false }

/-- C7.  The claim says the pose update leaves the camera AND ALL
OTHER STATE unchanged whenever the head pose is invalid.  With an HMD
present, `WaitGetPoses` still overwrites the stored pose array: on a
window holding valid poses, an update delivering invalid poses changes
the state (the stored head-pose validity flips) even though the
cameras are untouched. -/
theorem C7_counterexample :
    poseWindow.HMD = true ∧
    (invalidPoses trackedDeviceIndexHmd).bPoseIsValid = false ∧
    updateHMDMatrixPose poseWindow invalidPoses ≠ poseWindow ∧
    (updateHMDMatrixPose poseWindow invalidPoses).cameras =
      poseWindow.cameras := by
  refine ⟨rfl, rfl, ?_, rfl⟩
  intro h
  have hv := congrArg
    (fun w => (w.TrackedDevicePose trackedDeviceIndexHmd).bPoseIsValid) h
  simp [updateHMDMatrixPose, poseWindow, validPoses, invalidPoses] at hv

/-- C7 (amended).  With no VR session the pose update is a complete
no-op.  With a session but an invalid head pose, the cameras and the
configuration are unchanged and only the stored pose array is
refreshed with the newly delivered poses. -/
theorem C7_theorem (w : HMDPoseState) (newPoses : Nat → TrackedPose) :
    (w.HMD = false → updateHMDMatrixPose w newPoses = w) ∧
    (w.HMD = true →
      (newPoses trackedDeviceIndexHmd).bPoseIsValid = false →
      (updateHMDMatrixPose w newPoses).cameras = w.cameras ∧
      (updateHMDMatrixPose w newPoses).HMD = w.HMD ∧
      (updateHMDMatrixPose w newPoses).InitialViewUp = w.InitialViewUp ∧
      (updateHMDMatrixPose w newPoses).InitialViewDirection =
        w.InitialViewDirection ∧
      (updateHMDMatrixPose w newPoses).TrackedDevicePose = newPoses) := by
  constructor
  · intro h
    unfold updateHMDMatrixPose
    simp [h]
  · intro h hinv
    unfold updateHMDMatrixPose
    simp [h, hinv]

/-- Witness for C7: the no-session branch and the invalid-head-pose
branch on concrete windows. -/
theorem C7_witness :
    updateHMDMatrixPose poseWindowNoHMD invalidPoses = poseWindowNoHMD ∧
    ((updateHMDMatrixPose poseWindow invalidPoses).cameras =
        poseWindow.cameras ∧
     (updateHMDMatrixPose poseWindow invalidPoses).HMD = poseWindow.HMD ∧
     (updateHMDMatrixPose poseWindow invalidPoses).InitialViewUp =
        poseWindow.InitialViewUp ∧
     (updateHMDMatrixPose poseWindow invalidPoses).InitialViewDirection =
        poseWindow.InitialViewDirection ∧
     (updateHMDMatrixPose poseWindow invalidPoses).TrackedDevicePose =
        invalidPoses) :=
  ⟨(C7_theorem poseWindowNoHMD invalidPoses).1 rfl,
   (C7_theorem poseWindow invalidPoses).2 rfl rfl⟩

/-- The window state before `Initialize`, with the constructor's
window size 640x720. -/
def preInitWindow : InitWindowState :=
  { HMD := false, RenderWidth := 0, RenderHeight := 0,
    SizeX := 640, SizeY := 720, WindowCreated := false,
    ContextCreated := false }

/-- An environment in which every step succeeds and the runtime
recommends 1512x1680. -/
def envAllOk : InitEnv :=
  { sdlInitOk := true, vrInitError := 0, renderModelsOk := true,
    recommendedWidth := 1512, recommendedHeight := 1680,
    windowOk := true, contextOk := true, swapIntervalOk := true,
    leftStatus := GL_FRAMEBUFFER_COMPLETE,
    rightStatus := GL_FRAMEBUFFER_COMPLETE, compositorOk := true }

/-- The all-ok environment except that the left framebuffer never
reaches complete status. -/
def envFbBad : InitEnv :=
  { envAllOk with leftStatus := 36055 }

/-- The all-ok environment except that SDL initialization fails. -/
def envSdlBad : InitEnv :=
  { envAllOk with sdlInitOk := false }

/-- The all-ok environment except that GL context creation fails. -/
def envCtxBad : InitEnv :=
  { envAllOk with contextOk := false }

/-- The all-ok environment except that init of the VR runtime fails
(`VRInitError_Init_HmdNotFound`, 108). -/
def envVrBad : InitEnv :=
  { envAllOk with vrInitError := 108 }

/-- The all-ok environment except that the render-models interface is
unavailable. -/
def envRmBad : InitEnv :=
  { envAllOk with renderModelsOk := false }

/-- The all-ok environment except that window creation fails. -/
def envWinBad : InitEnv :=
  { envAllOk with windowOk := false }

/-- The all-ok environment except that the swap-interval call fails. -/
def envSwapBad : InitEnv :=
  { envAllOk with swapIntervalOk := false }

/-- C4.  The claim says any failing step of `Initialize` — including
an incomplete framebuffer — aborts initialization.  It does not: with
every other step succeeding and the left framebuffer incomplete,
`CreateFrameBuffer` returns false, yet `Initialize` carries on — it
still creates the second framebuffer, reaches the compositor check,
and creates the dashboard overlay. -/
theorem C4_counterexample :
    createFrameBuffer 1512 1680 envFbBad.leftStatus = false ∧
    (renderWindowInit preInitWindow envFbBad).2.fbCreations =
      [(1512, 1680, false), (1512, 1680, true)] ∧
    (renderWindowInit preInitWindow envFbBad).2.compositorChecked = true ∧
    (renderWindowInit preInitWindow envFbBad).2.overlayCreated = true := by
  refine ⟨?_, ?_, ?_, ?_⟩ <;> rfl

/-- C4 (amended).  `CreateFrameBuffer` reports failure (returns false)
when the framebuffer does not reach complete status, and the failing
steps of `Initialize` before framebuffer creation abort it — but an
incomplete framebuffer does not: `Initialize` discards the
`CreateFrameBuffer` results and continues with the compositor check
and overlay creation. -/
theorem C4_theorem (s : InitWindowState) (env : InitEnv) (w h st : Nat) :
    (st ≠ GL_FRAMEBUFFER_COMPLETE → createFrameBuffer w h st = false) ∧
    (env.sdlInitOk = false → renderWindowInit s env = (s, abortedTrace)) ∧
    (env.vrInitError ≠ 0 → (renderWindowInit s env).2 = abortedTrace) ∧
    (env.renderModelsOk = false →
      (renderWindowInit s env).2 = abortedTrace) ∧
    (env.windowOk = false → (renderWindowInit s env).2 = abortedTrace) ∧
    (env.contextOk = false → (renderWindowInit s env).2 = abortedTrace) ∧
    (env.swapIntervalOk = false →
      (renderWindowInit s env).2 = abortedTrace) ∧
    (env.sdlInitOk = true → env.vrInitError = 0 → env.renderModelsOk = true →
      env.windowOk = true → env.contextOk = true → env.swapIntervalOk = true →
      (renderWindowInit s env).2.compositorChecked = true ∧
      (renderWindowInit s env).2.overlayCreated = env.compositorOk) := by
  refine ⟨?_, ?_, ?_, ?_, ?_, ?_, ?_, ?_⟩
  · intro hst
    simp [createFrameBuffer, hst]
  · intro hsdl
    unfold renderWindowInit
    simp [hsdl]
  · intro hvr
    unfold renderWindowInit
    by_cases h1 : env.sdlInitOk
    · simp [h1, hvr]
    · simp [h1]
  · intro hrm
    unfold renderWindowInit
    by_cases h1 : env.sdlInitOk
    · by_cases h2 : env.vrInitError = 0
      · simp [h1, h2, hrm]
      · simp [h1, h2]
    · simp [h1]
  · intro hwin
    unfold renderWindowInit
    by_cases h1 : env.sdlInitOk
    · by_cases h2 : env.vrInitError = 0
      · by_cases h3 : env.renderModelsOk
        · simp [h1, h2, h3, hwin]
        · simp [h1, h2, h3]
      · simp [h1, h2]
    · simp [h1]
  · intro hctx
    unfold renderWindowInit
    by_cases h1 : env.sdlInitOk
    · by_cases h2 : env.vrInitError = 0
      · by_cases h3 : env.renderModelsOk
        · by_cases h4 : env.windowOk <;> simp [h1, h2, h3, h4, hctx]
        · simp [h1, h2, h3]
      · simp [h1, h2]
    · simp [h1]
  · intro hswap
    unfold renderWindowInit
    by_cases h1 : env.sdlInitOk
    · by_cases h2 : env.vrInitError = 0
      · by_cases h3 : env.renderModelsOk
        · by_cases h4 : env.windowOk
          · by_cases h5 : env.contextOk <;>
              simp [h1, h2, h3, h4, h5, hswap]
          · simp [h1, h2, h3, h4]
        · simp [h1, h2, h3]
      · simp [h1, h2]
    · simp [h1]
  · intro h1 h2 h3 h4 h5 h6
    unfold renderWindowInit
    by_cases h7 : env.compositorOk <;> simp [h1, h2, h3, h4, h5, h6, h7]

/-- Witness for C4: every branch discharged on a concrete
environment — one per failing step, plus the incomplete-framebuffer
continuation. -/
theorem C4_witness :
    createFrameBuffer 1512 1680 36055 = false ∧
    renderWindowInit preInitWindow envSdlBad = (preInitWindow, abortedTrace) ∧
    (renderWindowInit preInitWindow envVrBad).2 = abortedTrace ∧
    (renderWindowInit preInitWindow envRmBad).2 = abortedTrace ∧
    (renderWindowInit preInitWindow envWinBad).2 = abortedTrace ∧
    (renderWindowInit preInitWindow envCtxBad).2 = abortedTrace ∧
    (renderWindowInit preInitWindow envSwapBad).2 = abortedTrace ∧
    ((renderWindowInit preInitWindow envFbBad).2.compositorChecked = true ∧
     (renderWindowInit preInitWindow envFbBad).2.overlayCreated =
       envFbBad.compositorOk) :=
  ⟨(C4_theorem preInitWindow envAllOk 1512 1680 36055).1 (by
      norm_num [GL_FRAMEBUFFER_COMPLETE]),
   (C4_theorem preInitWindow envSdlBad 0 0 0).2.1 rfl,
   (C4_theorem preInitWindow envVrBad 0 0 0).2.2.1 (by
      norm_num [envVrBad, envAllOk]),
   (C4_theorem preInitWindow envRmBad 0 0 0).2.2.2.1 rfl,
   (C4_theorem preInitWindow envWinBad 0 0 0).2.2.2.2.1 rfl,
   (C4_theorem preInitWindow envCtxBad 0 0 0).2.2.2.2.2.1 rfl,
   (C4_theorem preInitWindow envSwapBad 0 0 0).2.2.2.2.2.2.1 rfl,
   (C4_theorem preInitWindow envFbBad 0 0 0).2.2.2.2.2.2.2
     rfl rfl rfl rfl rfl rfl⟩

/-- C9.  On every `Initialize` run in which the external steps all
succeed and the runtime recommends a render-target size WxH, both eye
framebuffers are created at exactly WxH — regardless of the window
state, whose visible size plays no role. -/
theorem C9_theorem (s : InitWindowState) (env : InitEnv)
    (h1 : env.sdlInitOk = true) (h2 : env.vrInitError = 0)
    (h3 : env.renderModelsOk = true) (h4 : env.windowOk = true)
    (h5 : env.contextOk = true) (h6 : env.swapIntervalOk = true)
    (h7 : env.compositorOk = true) :
    (renderWindowInit s env).2.fbCreations.map (fun t => (t.1, t.2.1)) =
      [(env.recommendedWidth, env.recommendedHeight),
       (env.recommendedWidth, env.recommendedHeight)] ∧
    (renderWindowInit s env).1.RenderWidth = env.recommendedWidth ∧
    (renderWindowInit s env).1.RenderHeight = env.recommendedHeight := by
  unfold renderWindowInit
  simp [h1, h2, h3, h4, h5, h6, h7]

/-- Witness for C9: a runtime recommending 1512x1680 against a window
whose visible size is 640x720. -/
theorem C9_witness :
    (renderWindowInit preInitWindow envAllOk).2.fbCreations.map
        (fun t => (t.1, t.2.1)) = [(1512, 1680), (1512, 1680)] ∧
    (renderWindowInit preInitWindow envAllOk).1.RenderWidth = 1512 ∧
    (renderWindowInit preInitWindow envAllOk).1.RenderHeight = 1680 :=
  C9_theorem preInitWindow envAllOk rfl rfl rfl rfl rfl rfl rfl

set_option maxHeartbeats 1000000 in
/-- A model render call never changes the `Show` flag. -/
theorem vrModelRender_Show (s : OVRModelState) (env : ModelRenderEnv) :
    ((vrModelRender s env).1).Show = s.Show := by
  obtain ⟨nm, sh, rm, rt, ld, fl⟩ := s
  unfold vrModelRender
  cases rm <;> cases rt <;> cases ld <;> cases fl <;> simp only [] <;>
    split_ifs <;> rfl

/-- A true `Show` flag at an index survives appending to the cache. -/
theorem modelShowAt_append_of_true {ms : List OVRModelState} {i : Nat}
    (h : modelShowAt ms i = true) (ms2 : List OVRModelState) :
    modelShowAt (ms ++ ms2) i = true := by
  unfold modelShowAt at h ⊢
  cases hg : ms[i]? with
  | none => rw [hg] at h; simp at h
  | some m =>
    rw [hg] at h
    rw [List.getElem?_append_left (List.getElem?_eq_some.mp hg).1, hg]
    exact h

/-- Updating an entry with a `Show`-preserving function preserves
`modelShowAt` everywhere. -/
theorem modelShowAt_updateModelAt (f : OVRModelState → OVRModelState)
    (hf : ∀ m, (f m).Show = m.Show) :
    ∀ (ms : List OVRModelState) (j i : Nat),
      modelShowAt (updateModelAt ms j f) i = modelShowAt ms i := by
  intro ms
  induction ms with
  | nil => intro j i; cases j <;> rfl
  | cons m rest ih =>
    intro j i
    cases j with
    | zero =>
      cases i with
      | zero => simp [updateModelAt, modelShowAt, hf]
      | succ i2 => simp [updateModelAt, modelShowAt]
    | succ j2 =>
      cases i with
      | zero => simp [updateModelAt, modelShowAt]
      | succ i2 =>
        simp only [updateModelAt, modelShowAt, List.getElem?_cons_succ]
        exact ih j2 i2

/-- The cache after `FindOrLoadRenderModel` is the old cache, possibly
with one model appended. -/
theorem findOrLoadRenderModel_models_cases (ms : List OVRModelState)
    (n : String) (r : Nat) :
    (findOrLoadRenderModel ms n r).2.1 = ms ∨
    ∃ m, (findOrLoadRenderModel ms n r).2.1 = ms ++ [m] := by
  unfold findOrLoadRenderModel
  cases hid : findModelIdx ms n
  · by_cases hr : r > VRRenderModelError_Loading
    · left
      simp [hr]
    · right
      refine ⟨{ newModel n with
                RawModel := decide (r = VRRenderModelError_None),
                Show := true }, ?_⟩
      simp [hr]
  · left
    rfl

/-- A device-to-model assignment survives a `RenderModels` step. -/
theorem renderModelsStep_assign (env : RMEnv) (poses : Nat → TrackedPose)
    (d : Nat) (st : RMState) (d0 i0 : Nat)
    (h : st.deviceToModel d0 = some i0) :
    ((renderModelsStep env poses d st).1).deviceToModel d0 = some i0 := by
  unfold renderModelsStep
  by_cases hc : env.connected d = true
  case neg => simp [hc, h]
  cases hdm : st.deviceToModel d with
  | some j =>
    simp only [hc, hdm]
    split_ifs <;> simp [h]
  | none =>
    cases hfl : (findOrLoadRenderModel st.models (env.renderModelName d)
        (env.loadRes (env.renderModelName d))).1 with
    | none =>
      simp [hc, hdm, hfl, h]
    | some j =>
      have hne : d0 ≠ d := by
        intro he
        rw [he, hdm] at h
        cases h
      simp [hc, hdm, hfl, hne, h]
      all_goals split_ifs <;> simp [hne, h]

/-- A true `Show` flag survives a `RenderModels` step. -/
theorem renderModelsStep_show (env : RMEnv) (poses : Nat → TrackedPose)
    (d : Nat) (st : RMState) (i : Nat)
    (h : modelShowAt st.models i = true) :
    modelShowAt ((renderModelsStep env poses d st).1).models i = true := by
  have hflr := findOrLoadRenderModel_models_cases st.models
    (env.renderModelName d) (env.loadRes (env.renderModelName d))
  have hupd := modelShowAt_updateModelAt
    (fun ms2 => (vrModelRender ms2
      { geomRes := env.geomRes (modelNameAt st.models i),
        texRes := env.texRes (modelNameAt st.models i),
        renPresent := env.renPresent, pose := (poses d).m,
        tcdc := env.tcdc }).1)
    (fun m2 => vrModelRender_Show m2 _)
  unfold renderModelsStep
  by_cases hc : env.connected d = true
  case neg => simp [hc, h]
  cases hdm : st.deviceToModel d with
  | some j =>
    simp [hc, hdm, h,
      modelShowAt_updateModelAt _ (fun m2 => vrModelRender_Show m2 _)]
    all_goals split_ifs <;>
      simp [h, modelShowAt_updateModelAt _ (fun m2 => vrModelRender_Show m2 _)]
  | none =>
    cases hfl : (findOrLoadRenderModel st.models (env.renderModelName d)
        (env.loadRes (env.renderModelName d))).1 with
    | none =>
      rcases hflr with he | ⟨m, he⟩ <;>
        simp [hc, hdm, hfl, he, h, modelShowAt_append_of_true h,
          modelShowAt_updateModelAt _ (fun m2 => vrModelRender_Show m2 _)]
    | some j =>
      rcases hflr with he | ⟨m, he⟩ <;>
        simp [hc, hdm, hfl, he, h, modelShowAt_append_of_true h,
          modelShowAt_updateModelAt _ (fun m2 => vrModelRender_Show m2 _)] <;>
        all_goals split_ifs <;>
          simp [h, modelShowAt_append_of_true h,
            modelShowAt_updateModelAt _ (fun m2 => vrModelRender_Show m2 _)]

/-- If a `RenderModels` step invokes a render, the rendered pair is
this device, the device is connected with a valid pose, it is not a
skipped controller, and in the step's output state the device is
assigned exactly that model, whose `Show` flag is on. -/
theorem renderModelsStep_sound (env : RMEnv) (poses : Nat → TrackedPose)
    (d : Nat) (st : RMState) (d0 i0 : Nat)
    (h : (renderModelsStep env poses d st).2 = some (d0, i0)) :
    d0 = d ∧ env.connected d = true ∧ (poses d).bPoseIsValid = true ∧
    ¬ (env.inputCaptured = true ∧
       env.deviceClass d = trackedDeviceClassController) ∧
    ((renderModelsStep env poses d st).1).deviceToModel d = some i0 ∧
    modelShowAt ((renderModelsStep env poses d st).1).models i0 = true := by
  by_cases hc : env.connected d = true
  case neg =>
    have hred : renderModelsStep env poses d st = (st, none) := by
      unfold renderModelsStep
      simp [hc]
    rw [hred] at h
    cases h
  cases hdm : st.deviceToModel d with
  | some j =>
    by_cases h1 : modelShowAt st.models j = false
    · have hred : (renderModelsStep env poses d st).2 = none := by
        unfold renderModelsStep
        simp [hc, hdm, h1]
      rw [hred] at h
      cases h
    by_cases h2 : (poses d).bPoseIsValid = false
    · have hred : (renderModelsStep env poses d st).2 = none := by
        unfold renderModelsStep
        simp [hc, hdm, h1, h2]
      rw [hred] at h
      cases h
    by_cases h3 : env.inputCaptured = true ∧
        env.deviceClass d = trackedDeviceClassController
    · have hred : (renderModelsStep env poses d st).2 = none := by
        unfold renderModelsStep
        simp [hc, hdm, h1, h2, h3]
      rw [hred] at h
      cases h
    have hred : renderModelsStep env poses d st =
        ({ models := updateModelAt st.models j (fun ms => (vrModelRender ms
            { geomRes := env.geomRes (modelNameAt st.models j),
              texRes := env.texRes (modelNameAt st.models j),
              renPresent := env.renPresent, pose := (poses d).m,
              tcdc := env.tcdc }).1),
           deviceToModel := st.deviceToModel }, some (d, j)) := by
      unfold renderModelsStep
      simp [hc, hdm, h1, h2, h3]
    rw [hred] at h
    simp only [Option.some.injEq, Prod.mk.injEq] at h
    obtain ⟨hd, hi⟩ := h
    subst hd
    subst hi
    rw [hred]
    refine ⟨rfl, hc, by simpa using h2, h3, by simp [hdm], ?_⟩
    simp only
    rw [modelShowAt_updateModelAt _ (fun m2 => vrModelRender_Show m2 _)]
    simpa using h1
  | none =>
    cases hfl : (findOrLoadRenderModel st.models (env.renderModelName d)
        (env.loadRes (env.renderModelName d))).1 with
    | none =>
      have hred : (renderModelsStep env poses d st).2 = none := by
        unfold renderModelsStep
        simp [hc, hdm, hfl]
      rw [hred] at h
      cases h
    | some j =>
      by_cases h1 : modelShowAt (findOrLoadRenderModel st.models
          (env.renderModelName d) (env.loadRes (env.renderModelName d))).2.1
          j = false
      · have hred : (renderModelsStep env poses d st).2 = none := by
          unfold renderModelsStep
          simp [hc, hdm, hfl, h1]
        rw [hred] at h
        cases h
      by_cases h2 : (poses d).bPoseIsValid = false
      · have hred : (renderModelsStep env poses d st).2 = none := by
          unfold renderModelsStep
          simp [hc, hdm, hfl, h1, h2]
        rw [hred] at h
        cases h
      by_cases h3 : env.inputCaptured = true ∧
          env.deviceClass d = trackedDeviceClassController
      · have hred : (renderModelsStep env poses d st).2 = none := by
          unfold renderModelsStep
          simp [hc, hdm, hfl, h1, h2, h3]
        rw [hred] at h
        cases h
      have hred : renderModelsStep env poses d st =
          ({ models := updateModelAt (findOrLoadRenderModel st.models
                (env.renderModelName d)
                (env.loadRes (env.renderModelName d))).2.1 j
              (fun ms => (vrModelRender ms
                { geomRes := env.geomRes (modelNameAt
                    (findOrLoadRenderModel st.models (env.renderModelName d)
                      (env.loadRes (env.renderModelName d))).2.1 j),
                  texRes := env.texRes (modelNameAt
                    (findOrLoadRenderModel st.models (env.renderModelName d)
                      (env.loadRes (env.renderModelName d))).2.1 j),
                  renPresent := env.renPresent, pose := (poses d).m,
                  tcdc := env.tcdc }).1),
             deviceToModel := fun d2 =>
               if d2 = d then some j else st.deviceToModel d2 },
           some (d, j)) := by
        unfold renderModelsStep
        simp [hc, hdm, hfl, h1, h2, h3]
      rw [hred] at h
      simp only [Option.some.injEq, Prod.mk.injEq] at h
      obtain ⟨hd, hi⟩ := h
      subst hd
      subst hi
      rw [hred]
      refine ⟨rfl, hc, by simpa using h2, h3, by simp, ?_⟩
      simp only
      rw [modelShowAt_updateModelAt _ (fun m2 => vrModelRender_Show m2 _)]
      simpa using h1

/-- A device-to-model assignment survives the rest of the loop. -/
theorem renderModelsAux_assign (env : RMEnv) (poses : Nat → TrackedPose) :
    ∀ (devs : List Nat) (st : RMState) (d0 i0 : Nat),
      st.deviceToModel d0 = some i0 →
      ((renderModelsAux env poses devs st).1).deviceToModel d0 = some i0 := by
  intro devs
  induction devs with
  | nil => intro st d0 i0 h; exact h
  | cons d rest ih =>
    intro st d0 i0 h
    exact ih _ _ _ (renderModelsStep_assign env poses d st d0 i0 h)

/-- A true `Show` flag survives the rest of the loop. -/
theorem renderModelsAux_show (env : RMEnv) (poses : Nat → TrackedPose) :
    ∀ (devs : List Nat) (st : RMState) (i : Nat),
      modelShowAt st.models i = true →
      modelShowAt ((renderModelsAux env poses devs st).1).models i = true := by
  intro devs
  induction devs with
  | nil => intro st i h; exact h
  | cons d rest ih =>
    intro st i h
    exact ih _ _ (renderModelsStep_show env poses d st i h)

/-- Soundness of the loop: every rendered pair comes from a device in
the traversed list that was connected with a valid pose, was not a
skipped controller, and is assigned that model with `Show` on in the
final state. -/
theorem renderModelsAux_sound (env : RMEnv) (poses : Nat → TrackedPose) :
    ∀ (devs : List Nat) (st : RMState) (d i : Nat),
      (d, i) ∈ (renderModelsAux env poses devs st).2 →
      d ∈ devs ∧ env.connected d = true ∧ (poses d).bPoseIsValid = true ∧
      ¬ (env.inputCaptured = true ∧
         env.deviceClass d = trackedDeviceClassController) ∧
      ((renderModelsAux env poses devs st).1).deviceToModel d = some i ∧
      modelShowAt ((renderModelsAux env poses devs st).1).models i = true := by
  intro devs
  induction devs with
  | nil => intro st d i h; simp [renderModelsAux] at h
  | cons dd rest ih =>
    intro st d i h
    rw [renderModelsAux] at h
    rw [List.mem_append] at h
    have hfin : (renderModelsAux env poses (dd :: rest) st).1 =
        (renderModelsAux env poses rest
          (renderModelsStep env poses dd st).1).1 := by
      rw [renderModelsAux]
    cases h with
    | inl hstep =>
      have hsome : (renderModelsStep env poses dd st).2 = some (d, i) := by
        cases ho : (renderModelsStep env poses dd st).2 with
        | none => rw [ho] at hstep; cases hstep
        | some v =>
          rw [ho] at hstep
          simp at hstep
          rw [hstep]
      obtain ⟨hd, hcon, hval, hcap, hmap, hshow⟩ :=
        renderModelsStep_sound env poses dd st d i hsome
      subst hd
      refine ⟨List.mem_cons_self .., hcon, hval, hcap, ?_, ?_⟩
      · rw [hfin]
        exact renderModelsAux_assign env poses rest _ _ _ hmap
      · rw [hfin]
        exact renderModelsAux_show env poses rest _ _ hshow
    | inr hrest =>
      obtain ⟨hmem, hcon, hval, hcap, hmap, hshow⟩ := ih _ _ _ hrest
      exact ⟨List.mem_cons_of_mem _ hmem, hcon, hval, hcap,
        hfin ▸ hmap, hfin ▸ hshow⟩

/-- C10.  `RenderModels` invokes a model render only for device slots
strictly after the HMD slot (index 0) and below the device count, that
are connected, whose pose is valid, that are not controller-class
devices skipped while input focus is captured by another process, and
that end up assigned a model whose `Show` flag is on. -/
theorem C10_theorem (env : RMEnv) (poses : Nat → TrackedPose)
    (st : RMState) (d i : Nat)
    (h : (d, i) ∈ (vtkRenderModels env poses st).2) :
    trackedDeviceIndexHmd < d ∧ d < maxTrackedDeviceCount ∧
    env.connected d = true ∧ (poses d).bPoseIsValid = true ∧
    ¬ (env.inputCaptured = true ∧
       env.deviceClass d = trackedDeviceClassController) ∧
    ((vtkRenderModels env poses st).1).deviceToModel d = some i ∧
    modelShowAt ((vtkRenderModels env poses st).1).models i = true := by
  obtain ⟨hmem, hcon, hval, hcap, hmap, hshow⟩ :=
    renderModelsAux_sound env poses _ st d i h
  rw [List.mem_range'_1] at hmem
  refine ⟨?_, ?_, hcon, hval, hcap, hmap, hshow⟩
  · simpa [trackedDeviceIndexHmd] using hmem.1
  · have := hmem.2
    simp only [trackedDeviceIndexHmd, maxTrackedDeviceCount] at this ⊢
    omega

/-- A device environment for one frame: only device 1 is connected,
it is a controller whose model "vr_wand" loads successfully, and input
focus is not captured. -/
def rmEnvW : RMEnv :=
  { connected := fun d2 => d2 == 1,
    deviceClass := fun _ => trackedDeviceClassController,
    renderModelName := fun _ => "vr_wand",
    inputCaptured := false,
    loadRes := fun _ => 0,
    geomRes := fun _ => 0,
    texRes := fun _ => 100,
    renPresent := false,
    tcdc := id4 }

/-- All-valid zero poses for the frame. -/
def rmPosesW : Nat → TrackedPose := validPoses

/-- The window state at the first frame: empty cache, no
assignments. -/
def rmStateW : RMState :=
  { models := [], deviceToModel := fun _ => none }

/-- Witness for C10: in the concrete frame the loop renders exactly
device 1 with the freshly created model 0, and the soundness theorem
applies to it. -/
theorem C10_witness :
    (1, 0) ∈ (vtkRenderModels rmEnvW rmPosesW rmStateW).2 ∧
    (trackedDeviceIndexHmd < 1 ∧ 1 < maxTrackedDeviceCount ∧
     rmEnvW.connected 1 = true ∧ (rmPosesW 1).bPoseIsValid = true ∧
     ¬ (rmEnvW.inputCaptured = true ∧
        rmEnvW.deviceClass 1 = trackedDeviceClassController) ∧
     ((vtkRenderModels rmEnvW rmPosesW rmStateW).1).deviceToModel 1 =
       some 0 ∧
     modelShowAt ((vtkRenderModels rmEnvW rmPosesW rmStateW).1).models 0 =
       true) := by
  have hmem : (1, 0) ∈ (vtkRenderModels rmEnvW rmPosesW rmStateW).2 := by
    decide
  exact ⟨hmem, C10_theorem rmEnvW rmPosesW rmStateW 1 0 hmem⟩

end VTKOpenVR
